import Mathlib

/-!
Verification of the field-derivation engine and filtering pipeline of the
aq-data repository (src/pull.py), as a shallow embedding in Lean 4.

Python values flowing through the engine are strings, ints and floats;
fallible Python code is embedded as `Except PyErr`, with one constructor per
exception class the embedded code can raise.  Floats are modelled as exact
rationals (the quantities involved are sums, differences and divisions of
integers, where IEEE rounding never matters for the claims checked here).
-/

namespace AqData

/-- Python exceptions that the embedded fragments of pull.py can raise. -/
inductive PyErr where
  | keyError (k : String)
  | indexError
  | typeError
  | valueError
  | nameError (n : String)
  | zeroDivisionError
  | attributeError
deriving DecidableEq, Repr

/-- A Python value as used by the derivation engine: a string, an int, or a
float (modelled exactly as a rational). -/
inductive Value where
  | vstr (s : String)
  | vint (n : Int)
  | vfloat (q : ℚ)
deriving DecidableEq, Repr

/-- Python truthiness for the values above: empty string, 0 and 0.0 are falsy. -/
def pyTruthy : Value → Bool
  | .vstr s => !(s == "")
  | .vint n => !(n == 0)
  | .vfloat q => !(q == 0)

/-- Python equality of a value against a string literal: numbers never equal
strings. -/
def pyEqStr (v : Value) (s : String) : Bool :=
  match v with
  | .vstr t => t == s
  | _ => false

/-- String repetition, as Python `n * s` for an int `n` (negative counts give
the empty string). -/
def strRepeat (s : String) (n : Int) : String :=
  String.join (List.replicate n.toNat s)

/-- Python binary `-` restricted to the value types above. -/
def pySub : Value → Value → Except PyErr Value
  | .vint a, .vint b => .ok (.vint (a - b))
  | .vint a, .vfloat b => .ok (.vfloat ((a : ℚ) - b))
  | .vfloat a, .vint b => .ok (.vfloat (a - (b : ℚ)))
  | .vfloat a, .vfloat b => .ok (.vfloat (a - b))
  | _, _ => .error .typeError

/-- Python binary `*` restricted to the value types above (int × str is
string repetition). -/
def pyMul : Value → Value → Except PyErr Value
  | .vint a, .vint b => .ok (.vint (a * b))
  | .vint a, .vfloat b => .ok (.vfloat ((a : ℚ) * b))
  | .vfloat a, .vint b => .ok (.vfloat (a * (b : ℚ)))
  | .vfloat a, .vfloat b => .ok (.vfloat (a * b))
  | .vint n, .vstr s => .ok (.vstr (strRepeat s n))
  | .vstr s, .vint n => .ok (.vstr (strRepeat s n))
  | _, _ => .error .typeError

/-- Python true division `/` restricted to the value types above. -/
def pyDiv : Value → Value → Except PyErr Value
  | .vint a, .vint b =>
    if b = 0 then .error .zeroDivisionError else .ok (.vfloat ((a : ℚ) / (b : ℚ)))
  | .vint a, .vfloat b =>
    if b = 0 then .error .zeroDivisionError else .ok (.vfloat ((a : ℚ) / b))
  | .vfloat a, .vint b =>
    if b = 0 then .error .zeroDivisionError else .ok (.vfloat (a / (b : ℚ)))
  | .vfloat a, .vfloat b =>
    if b = 0 then .error .zeroDivisionError else .ok (.vfloat (a / b))
  | _, _ => .error .typeError

/-- One step of a job's state trace carries a "time" field that is either an
ISO-8601 string in the exact format `%Y-%m-%dT%H:%M:%S+00:00` (embedded by its
six components), a Unix-epoch integer, or a string not matching the format
(`invalid`, e.g. the terminal marker). -/
inductive TimeField where
  | iso (y mo d h mi s : Nat)
  | epoch (n : Int)
  | invalid
deriving DecidableEq, Repr

/-- A key/value annotation attached to an operation or an output item
(pull.py: `da.key`, `da.value`). -/
structure DataAssociation where
  key : String
  value : Value
deriving DecidableEq, Repr

/-- A job of an operation: technician id (`user_id`, None embedded as `none`),
sibling operations (only their count is consumed), and the parsed state trace
(`json.loads(job.state)`): each step's optional "time" entry (`none` when the
step record has no "time" key). -/
structure Job where
  user_id : Option Int
  operations : List Nat
  state : List (Option TimeField)
deriving DecidableEq, Repr

/-- An inventory item carrying data associations (pull.py lines 307-321). -/
structure Item where
  data_associations : List DataAssociation
deriving DecidableEq, Repr

/-- An operation output; its `item` may be None (falsy). -/
structure OpOutput where
  item : Option Item
deriving DecidableEq, Repr

/-- An Aquarium operation record, with exactly the attributes pull.py
consumes. -/
structure Operation where
  created_at : String
  id : Int
  operation_type_name : String
  status : String
  user_id : Option Int
  jobs : List Job
  data_associations : List DataAssociation
  outputs : List OpOutput
deriving DecidableEq, Repr

/-- The configuration and session state of a `DAMPAqData` instance that the
derivation engine reads: the parallel config lists from inputs.yaml and the
user-lookup of the session (`session.User.find`). -/
structure Env where
  PROTOCOLS : List String
  HANDS_OFF_TIME : List Value
  OUTPUTS : List String
  COSTS : List Value
  ERRORS : List String
  users : Int → Option String

/-- The accumulator `self.op_data`: a Python dict from field name to the list
of values collected so far, embedded as an insertion-ordered association
list with unique keys. -/
def OpData := List (String × List Value)
deriving DecidableEq, Repr

/-- Python dict lookup `d[k]` (as an Option; a miss is a KeyError at use
sites). -/
def dictLookup : OpData → String → Option (List Value)
  | [], _ => none
  | (k0, v) :: rest, k => if k0 = k then some v else dictLookup rest k

/-- Python dict assignment `d[k] = v`: overwrite in place if the key exists,
append a new entry otherwise. -/
def dictInsert : OpData → String → List Value → OpData
  | [], k, v => [(k, v)]
  | (k0, v0) :: rest, k, v =>
    if k0 = k then (k, v) :: rest else (k0, v0) :: dictInsert rest k v

/-- createEmptyDict (pull.py line 188):
`self.op_data = dict([(output, []) for output in self.OUTPUTS])`. -/
def createEmptyDict (outs : List String) : OpData :=
  outs.foldl (fun d o => dictInsert d o []) []

/-- appendData (pull.py line 222): `self.op_data[key].append(value)`; raises
KeyError when `key` is not a key of the dict. -/
def appendData (d : OpData) (k : String) (v : Value) : Except PyErr OpData :=
  match dictLookup d k with
  | none => .error (.keyError k)
  | some l => .ok (dictInsert d k (l ++ [v]))

/-- The access pattern `self.op_data[k][-1]`: KeyError on a missing key,
IndexError on an empty list. -/
def getLastE (d : OpData) (k : String) : Except PyErr Value :=
  match dictLookup d k with
  | none => .error (.keyError k)
  | some l =>
    match l.getLast? with
    | none => .error .indexError
    | some v => .ok v

/-- Days from 1970-01-01 of a proleptic-Gregorian civil date, the arithmetic
underlying Python's aware-datetime subtraction. -/
def daysFromCivil (y m d : Int) : Int :=
  let y2 := if m ≤ 2 then y - 1 else y
  let era := Int.fdiv y2 400
  let yoe := y2 - era * 400
  let mp := Int.emod (m + 9) 12
  let doy := Int.fdiv (153 * mp + 2) 5 + d - 1
  let doe := yoe * 365 + Int.fdiv yoe 4 - Int.fdiv yoe 100 + doy
  era * 146097 + doe - 719468

/-- Seconds from the epoch of a UTC timestamp given by its six components. -/
def epochOfCivil (y mo d h mi s : Nat) : Int :=
  daysFromCivil (y : Int) (mo : Int) (d : Int) * 86400
    + (h : Int) * 3600 + (mi : Int) * 60 + (s : Int)

/-- The timestamp branch of findRuntime (pull.py lines 349-356): a string is
parsed with `datetime.strptime(t, '%Y-%m-%dT%H:%M:%S+00:00')` and localized
to UTC (ValueError when the string does not match the format); an integer hits
`datetime.fromtimestamp(int(t), utc_tz)` where the name `utc_tz` is undefined
(the local variable is `tz`), so it raises NameError before any conversion. -/
def parseTime : TimeField → Except PyErr Int
  | .iso y mo d h mi s => .ok (epochOfCivil y mo d h mi s)
  | .invalid => .error .valueError
  | .epoch _ => .error (.nameError "utc_tz")

/-- The minutes expression of findRuntime (pull.py line 359):
`total_time.days*1440 + total_time.seconds/60`, where Python's timedelta
normalizes a difference of `t` seconds to floor-divided days and a
nonnegative seconds remainder. -/
def pyMinutes (t : Int) : ℚ :=
  ((Int.fdiv t 86400 : Int) : ℚ) * 1440 + ((t - Int.fdiv t 86400 * 86400 : Int) : ℚ) / 60

/-- findRuntime (pull.py lines 336-360).  `op.jobs[-1]` raises IndexError on
an operation without jobs (uncaught).  The try block covers exactly the two
subscript chains `time_json[0]['time']` and `time_json[-2]['time']`; any
failure there (trace shorter than two entries, or a step without a "time"
key) is caught and yields the empty string.  Timestamp parsing happens in the
`else` clause, outside the try, so its exceptions propagate. -/
def findRuntime (op : Operation) : Except PyErr Value :=
  match op.jobs.getLast? with
  | none => .error .indexError
  | some j =>
    let tj := j.state
    if 2 ≤ tj.length then
      match tj[0]?, tj[tj.length - 2]? with
      | some (some st), some (some en) =>
        match parseTime st with
        | .error e => .error e
        | .ok a =>
          match parseTime en with
          | .error e => .error e
          | .ok b => .ok (.vfloat (pyMinutes (b - a)))
      | _, _ => .ok (.vstr "")
    else .ok (.vstr "")

/-- The Status override loop body (pull.py lines 266-272): three independent
`if` tests on `da.key`; a key can match at most one of them. -/
def statusOverrideStep (v : String) (da : DataAssociation) : String :=
  if da.key = "job_crash" then "crashed"
  else if da.key = "aborted" then "aborted"
  else if da.key = "canceled" then "canceled"
  else v

/-- The Status rule (pull.py lines 262-274): start from `op.status`; when the
operation has data associations and the status is "error", scan all
associations and let each matching key overwrite the value (so the last
match in scan order wins).  The try/except around the scan has no failing
operation in this embedding. -/
def deriveStatus (op : Operation) : Except PyErr Value :=
  .ok (.vstr (if op.data_associations ≠ [] ∧ op.status = "error" then
      op.data_associations.foldl statusOverrideStep op.status
    else op.status))

/-- The Error Message scan body (pull.py lines 278-280): the generator keeps
associations whose key is in ERRORS and the loop overwrites `value` with each
one, so the last matching key wins. -/
def errStep (errs : List String) (v : String) (da : DataAssociation) : String :=
  if da.key ∈ errs then da.key else v

/-- The Error Message rule (pull.py lines 275-282), entirely inside
try/except: with data associations present and the last derived Status not
"done", scan for keys in ERRORS (last match wins); a failing Status lookup is
swallowed, yielding the empty string. -/
def deriveErrorMessage (env : Env) (op : Operation) (d : OpData) : Except PyErr Value :=
  .ok (.vstr (if op.data_associations = [] then ""
    else
      match getLastE d "Status" with
      | .error _ => ""
      | .ok s =>
        if pyEqStr s "done" then ""
        else op.data_associations.foldl (errStep env.ERRORS) ""))

/-- The Technician rule (pull.py line 261):
`self.session.User.find(int(op.jobs[-1].user_id)).name`; IndexError without
jobs, TypeError on `int(None)`, AttributeError when the user lookup returns
None. -/
def deriveTechnician (env : Env) (op : Operation) : Except PyErr Value :=
  match op.jobs.getLast? with
  | none => .error .indexError
  | some j =>
    match j.user_id with
    | none => .error .typeError
    | some u =>
      match env.users u with
      | none => .error .attributeError
      | some nm => .ok (.vstr nm)

/-- The Job Size rule (pull.py line 284): `len(op.jobs[-1].operations)`. -/
def deriveJobSize (op : Operation) : Except PyErr Value :=
  match op.jobs.getLast? with
  | none => .error .indexError
  | some j => .ok (.vint (j.operations.length : Int))

/-- The Runtime rule (pull.py lines 285-287): guarded by the last derived
Status being "done"; the row access and findRuntime are not inside any
try/except. -/
def deriveRuntimeField (op : Operation) (d : OpData) : Except PyErr Value :=
  match getLastE d "Status" with
  | .error e => .error e
  | .ok s => if pyEqStr s "done" then findRuntime op else .ok (.vstr "")

/-- The per-protocol constant lookup
`vals[self.PROTOCOLS.index(op.operation_type.name)]` (pull.py lines 290 and
298): ValueError when the name is not configured, IndexError when the
parallel list is shorter. -/
def configLookup (names : List String) (vals : List Value) (x : String) : Except PyErr Value :=
  if x ∈ names then
    match vals[names.indexOf x]? with
    | some v => .ok v
    | none => .error .indexError
  else .error .valueError

/-- The Hands-off Time rule (pull.py lines 288-290). -/
def deriveHandsOffTime (env : Env) (op : Operation) (d : OpData) : Except PyErr Value :=
  match getLastE d "Status" with
  | .error e => .error e
  | .ok s =>
    if pyEqStr s "done" then
      configLookup env.PROTOCOLS env.HANDS_OFF_TIME op.operation_type_name
    else .ok (.vstr "")

/-- The Hands-on Time rule (pull.py lines 291-293): guarded by Status "done"
and a truthy last Runtime; then
`self.op_data["Runtime"][-1] - self.op_data["Hands-off Time"][-1]`. -/
def deriveHandsOnTime (d : OpData) : Except PyErr Value :=
  match getLastE d "Status" with
  | .error e => .error e
  | .ok s =>
    if pyEqStr s "done" then
      match getLastE d "Runtime" with
      | .error e => .error e
      | .ok r =>
        if pyTruthy r then
          match getLastE d "Hands-off Time" with
          | .error e => .error e
          | .ok hoff => pySub r hoff
        else .ok (.vstr "")
    else .ok (.vstr "")

/-- The Hands-on Time/Job rule (pull.py lines 294-296). -/
def deriveHandsOnPerJob (d : OpData) : Except PyErr Value :=
  match getLastE d "Status" with
  | .error e => .error e
  | .ok s =>
    if pyEqStr s "done" then
      match getLastE d "Runtime" with
      | .error e => .error e
      | .ok r =>
        if pyTruthy r then
          match getLastE d "Hands-on Time" with
          | .error e => .error e
          | .ok hot =>
            match getLastE d "Job Size" with
            | .error e => .error e
            | .ok js => pyDiv hot js
        else .ok (.vstr "")
    else .ok (.vstr "")

/-- The Cost/Job rule (pull.py lines 297-298). -/
def deriveCostPerJob (env : Env) (op : Operation) : Except PyErr Value :=
  configLookup env.PROTOCOLS env.COSTS op.operation_type_name

/-- The Total Cost rule (pull.py lines 299-300):
`self.op_data["Job Size"][-1] * self.op_data["Cost/Job"][-1]`, unguarded. -/
def deriveTotalCost (d : OpData) : Except PyErr Value :=
  match getLastE d "Job Size" with
  | .error e => .error e
  | .ok js =>
    match getLastE d "Cost/Job" with
    | .error e => .error e
    | .ok cj => pyMul js cj

/-- The Cost/Minute (Total) rule (pull.py lines 301-303). -/
def deriveCostPerMinTotal (d : OpData) : Except PyErr Value :=
  match getLastE d "Status" with
  | .error e => .error e
  | .ok s =>
    if pyEqStr s "done" then
      match getLastE d "Runtime" with
      | .error e => .error e
      | .ok r =>
        if pyTruthy r then
          match getLastE d "Total Cost" with
          | .error e => .error e
          | .ok tc => pyDiv tc r
        else .ok (.vstr "")
    else .ok (.vstr "")

/-- The Cost/Minute (Hands-on) rule (pull.py lines 304-306). -/
def deriveCostPerMinHandsOn (d : OpData) : Except PyErr Value :=
  match getLastE d "Status" with
  | .error e => .error e
  | .ok s =>
    if pyEqStr s "done" then
      match getLastE d "Runtime" with
      | .error e => .error e
      | .ok r =>
        if pyTruthy r then
          match getLastE d "Total Cost" with
          | .error e => .error e
          | .ok tc =>
            match getLastE d "Hands-on Time" with
            | .error e => .error e
            | .ok hot => pyDiv tc hot
        else .ok (.vstr "")
    else .ok (.vstr "")

/-- The last-output-item association scan shared by Concentration Keyword and
the colony rules (pull.py lines 307-321): `op.outputs[-1]` raises IndexError
when there are no outputs; a missing (`None`) item or empty association list
short-circuits to the empty string; otherwise the last association carrying
the wanted key supplies the value. -/
def scanLastOutput (kw : String) (op : Operation) : Except PyErr Value :=
  match op.outputs.getLast? with
  | none => .error .indexError
  | some out =>
    match out.item with
    | none => .ok (.vstr "")
    | some it =>
      .ok (if it.data_associations = [] then .vstr ""
        else it.data_associations.foldl
          (fun v da => if da.key = kw then da.value else v) (.vstr ""))

/-- The White/Blue Colonies rules (pull.py lines 312-321): the compound
condition reads `self.op_data["Protocol"][-1]` (uncaught on failure) and the
scan runs only for protocol "Check Plate". -/
def deriveColonies (kw : String) (op : Operation) (d : OpData) : Except PyErr Value :=
  match getLastE d "Protocol" with
  | .error e => .error e
  | .ok p =>
    if pyEqStr p "Check Plate" then scanLastOutput kw op
    else .ok (.vstr "")

/-- The value computation of findData (pull.py lines 252-321) for
`check=None`: the sequential `if key == ...` tests are mutually exclusive,
so they embed as one dispatch; an unrecognized name leaves the initial empty
string. -/
def deriveValue (env : Env) (op : Operation) (key : String) (d : OpData) : Except PyErr Value :=
  if key = "Date" then .ok (.vstr op.created_at)
  else if key = "ID" then .ok (.vint op.id)
  else if key = "Protocol" then .ok (.vstr op.operation_type_name)
  else if key = "Technician" then deriveTechnician env op
  else if key = "Status" then deriveStatus op
  else if key = "Error Message" then deriveErrorMessage env op d
  else if key = "Job Size" then deriveJobSize op
  else if key = "Runtime" then deriveRuntimeField op d
  else if key = "Hands-off Time" then deriveHandsOffTime env op d
  else if key = "Hands-on Time" then deriveHandsOnTime d
  else if key = "Hands-on Time/Job" then deriveHandsOnPerJob d
  else if key = "Cost/Job" then deriveCostPerJob env op
  else if key = "Total Cost" then deriveTotalCost d
  else if key = "Cost/Minute (Total)" then deriveCostPerMinTotal d
  else if key = "Cost/Minute (Hands-on)" then deriveCostPerMinHandsOn d
  else if key = "Concentration Keyword" then scanLastOutput "concentration_keyword" op
  else if key = "White Colonies" then deriveColonies "white_colonies" op d
  else if key = "Blue Colonies" then deriveColonies "blue_colonies" op d
  else .ok (.vstr "")

/-- The field names findData has a rule for (the catalog of §4.1 of the
design notes). -/
def knownKeys : List String :=
  ["Date", "ID", "Protocol", "Technician", "Status", "Error Message",
   "Job Size", "Runtime", "Hands-off Time", "Hands-on Time",
   "Hands-on Time/Job", "Cost/Job", "Total Cost", "Cost/Minute (Total)",
   "Cost/Minute (Hands-on)", "Concentration Keyword", "White Colonies",
   "Blue Colonies"]

/-- findData (pull.py lines 251-329) with `check=None`: compute the value,
then append it when the key is configured; otherwise append the empty string
— which raises KeyError inside appendData whenever the key is absent from
the dict, before the diagnostic line is printed.  The second component
collects printed diagnostics. -/
def findData (env : Env) (op : Operation) (key : String) (d : OpData) :
    Except PyErr (OpData × List String) :=
  match deriveValue env op key d with
  | .error e => .error e
  | .ok v =>
    if key ∈ env.OUTPUTS then
      match appendData d key v with
      | .error e => .error e
      | .ok d2 => .ok (d2, [])
    else
      match appendData d key (.vstr "") with
      | .error e => .error e
      | .ok d2 =>
        .ok (d2, [key ++ " is not a known data type. Must input additional collection parameter (i.e., op.id)"])

/-- The inner loop of collectData (pull.py lines 240-241):
`for o in self.OUTPUTS: self.findData(op, o)`; an uncaught exception aborts
everything. -/
def processOutputs (env : Env) (op : Operation) : List String → OpData → Except PyErr OpData
  | [], d => .ok d
  | k :: ks, d =>
    match findData env op k d with
    | .error e => .error e
    | .ok (d2, _) => processOutputs env op ks d2

/-- Processing of one record: run findData over the configured outputs in
order. -/
def processRecord (env : Env) (op : Operation) (d : OpData) : Except PyErr OpData :=
  processOutputs env op env.OUTPUTS d

/-- The record loop of collectData (pull.py line 239). -/
def processRecords (env : Env) : List Operation → OpData → Except PyErr OpData
  | [], d => .ok d
  | op :: ops, d =>
    match processRecord env op d with
    | .error e => .error e
    | .ok d2 => processRecords env ops d2

/-- One protocol's pass of collectData (pull.py lines 236-241): reset the
accumulator with createEmptyDict, then process every fetched record. -/
def collectDataProtocol (env : Env) (ops : List Operation) : Except PyErr OpData :=
  processRecords env ops (createEmptyDict env.OUTPUTS)

/-- Membership `op.user_id in self.USER_KEYS` (Python `in` over a list of
ints; None is never a member). -/
def memOptInt (x : Option Int) (l : List Int) : Bool :=
  match x with
  | none => false
  | some u => l.contains u

/-- Truthiness of a technician identifier: None and 0 are falsy. -/
def truthyOptInt : Option Int → Bool
  | none => false
  | some n => !(n == 0)

/-- The last clause of the filter: `op.jobs[-1].user_id` is truthy. -/
def jobsLastTech (op : Operation) : Bool :=
  match op.jobs.getLast? with
  | none => false
  | some j => truthyOptInt j.user_id

/-- collectOperations (pull.py lines 175-182): the live generator keeps an
operation iff `op.user_id in self.USER_KEYS and op.jobs and
op.jobs[-1].user_id`; the `time` parameter is not consulted (the time-window
clause is commented out at line 180). -/
def collectOperations (USER_KEYS : List Int) (ops : List Operation) (tm : Int) :
    List Operation :=
  ops.filter (fun op =>
    memOptInt op.user_id USER_KEYS && !op.jobs.isEmpty && jobsLastTech op)

/-- Formalisation of the specification's filter predicate (§4.2), stated for
comparison with `collectOperations`: the technician — the most recent job's
user — must be one of the resolved user identifiers, the operation must have
a job, and the technician identifier must be non-empty. -/
def specFilterPredicate (keys : List Int) (op : Operation) : Bool :=
  (match op.jobs.getLast? with
   | none => false
   | some j =>
     match j.user_id with
     | none => false
     | some u => keys.contains u && !(u == 0)) && !op.jobs.isEmpty

/-- Formalisation of the specification's Error Message rule, stated for
comparison with `deriveErrorMessage`: the first data-association key present
in the configured error-keyword list. -/
def specFirstErrorKey (errs : List String) (das : List DataAssociation) : Option String :=
  (das.find? (fun da => decide (da.key ∈ errs))).map (fun da => da.key)

/-- Numeric content of a value, when it has one. -/
def toQ : Value → Option ℚ
  | .vint n => some ((n : Int) : ℚ)
  | .vfloat q => some q
  | .vstr _ => none

/-- The three data-association keys the Status override inspects. -/
def overrideKeys : List String := ["job_crash", "aborted", "canceled"]

/-- The status a matching override key resolves to: job_crash maps to
"crashed", aborted and canceled map to themselves. -/
def overrideName (k : String) : String :=
  if k = "job_crash" then "crashed" else k

/-- Length of the value sequence the accumulator holds for a field. -/
def lenAt (d : OpData) (k : String) : Option Nat :=
  (dictLookup d k).map List.length

/-! Concrete fixtures used to evaluate the development on closed inputs. -/

/-- A minimal completed operation. -/
def opFix : Operation :=
  { created_at := "2018-08-01T00:00:00+00:00", id := 7,
    operation_type_name := "P", status := "done", user_id := some 1,
    jobs := [], data_associations := [], outputs := [] }

/-- An environment whose only configured output is Date. -/
def envDate : Env :=
  { PROTOCOLS := [], HANDS_OFF_TIME := [], OUTPUTS := ["Date"],
    COSTS := [], ERRORS := [], users := fun _ => none }

/-- An environment whose only configured output is Runtime (no Status before
it). -/
def envRuntime : Env :=
  { PROTOCOLS := [], HANDS_OFF_TIME := [], OUTPUTS := ["Runtime"],
    COSTS := [], ERRORS := [], users := fun _ => none }

/-- An environment with the duplicated output list ["Date", "Date"]. -/
def envDup : Env :=
  { PROTOCOLS := [], HANDS_OFF_TIME := [], OUTPUTS := ["Date", "Date"],
    COSTS := [], ERRORS := [], users := fun _ => none }

/-- An environment with the duplicate-free output list ["Date", "ID"]. -/
def envDateId : Env :=
  { PROTOCOLS := [], HANDS_OFF_TIME := [], OUTPUTS := ["Date", "ID"],
    COSTS := [], ERRORS := [], users := fun _ => none }

/-- An environment with the error-keyword list ["alpha", "beta"]. -/
def envErrAB : Env :=
  { PROTOCOLS := [], HANDS_OFF_TIME := [], OUTPUTS := [],
    COSTS := [], ERRORS := ["alpha", "beta"], users := fun _ => none }

/-- An environment with the error-keyword list ["gamma"]. -/
def envErrG : Env :=
  { PROTOCOLS := [], HANDS_OFF_TIME := [], OUTPUTS := [],
    COSTS := [], ERRORS := ["gamma"], users := fun _ => none }

/-- An errored operation carrying two associations whose keys are both
error keywords of `envErrAB`. -/
def opErrAB : Operation :=
  { opFix with
    status := "error",
    data_associations := [⟨"alpha", .vstr "1"⟩, ⟨"beta", .vstr "2"⟩] }

/-- An errored operation whose second association key is the sole error
keyword of `envErrG`. -/
def opErrG : Operation :=
  { opFix with
    status := "error",
    data_associations := [⟨"delta", .vstr "1"⟩, ⟨"gamma", .vstr "2"⟩] }

/-- An errored operation carrying a single job_crash association. -/
def opCrash : Operation :=
  { opFix with
    status := "error",
    data_associations := [⟨"job_crash", .vstr "log"⟩] }

/-- An operation whose most recent job's state trace holds the timestamps
00:00:00 and 00:10:00 of 2018-01-01 followed by a terminal marker that is not
a parseable timestamp. -/
def opTrace10 : Operation :=
  { opFix with jobs := [⟨some 1, [0],
      [some (.iso 2018 1 1 0 0 0), some (.iso 2018 1 1 0 10 0), some .invalid]⟩] }

/-- An operation whose most recent job's state trace has a single entry. -/
def opTrace1 : Operation :=
  { opFix with jobs := [⟨some 1, [0], [some (.iso 2018 1 1 0 0 0)]⟩] }

/-- An operation whose most recent job's state trace has exactly two entries,
so that first and second-to-last coincide. -/
def opTrace2 : Operation :=
  { opFix with jobs := [⟨some 1, [0],
      [some (.iso 2018 3 5 12 0 0), some (.iso 2018 3 5 13 0 0)]⟩] }

/-- An operation whose state-trace timestamps are Unix-epoch integers. -/
def opEpoch : Operation :=
  { opFix with jobs := [⟨some 1, [0],
      [some (.epoch 0), some (.epoch 600), some .invalid]⟩] }

/-- An operation submitted by user 1 whose most recent job was run by
technician 2. -/
def opTech2 : Operation :=
  { opFix with
    user_id := some 1, jobs := [⟨some 2, [0], []⟩] }

/-- A row whose Status is "error". -/
def dStatusError : OpData := [("Status", [.vstr "error"])]

/-- A row for a finished record with a truthy Runtime and an integer
Hands-off Time. -/
def dDone30 : OpData :=
  [("Status", [.vstr "done"]), ("Runtime", [.vfloat 30]),
   ("Hands-off Time", [.vint 10])]

/-- A row for a finished record whose Runtime came out empty. -/
def dDoneEmptyRt : OpData :=
  [("Status", [.vstr "done"]), ("Runtime", [.vstr ""])]

/-- A row for a finished record whose Runtime came out 0.0. -/
def dDoneZeroRt : OpData :=
  [("Status", [.vstr "done"]), ("Runtime", [.vfloat 0])]

/-- Occurrences of a field name in an output list. -/
def countKey (k : String) : List String → Nat
  | [] => 0
  | o :: os => (if k = o then 1 else 0) + countKey k os

/-! Helper lemmas. -/

/-- The timedelta decomposition `days*1440 + seconds/60` of a difference of
`t` seconds is exactly `t/60` minutes. -/
theorem pyMinutes_eq (t : Int) : pyMinutes t = (t : ℚ) / 60 := by
  unfold pyMinutes
  push_cast
  field_simp
  ring

/-- Lookup after a dict assignment. -/
theorem dictLookup_dictInsert (d : OpData) (k : String) (v : List Value) (k2 : String) :
    dictLookup (dictInsert d k v) k2 = if k2 = k then some v else dictLookup d k2 := by
  induction d with
  | nil =>
    by_cases h : k2 = k
    · simp [dictInsert, dictLookup, h]
    · have hs : ¬(k = k2) := fun hh => h hh.symm
      simp [dictInsert, dictLookup, h, hs]
  | cons hd tl ih =>
    obtain ⟨k0, v0⟩ := hd
    by_cases h0 : k0 = k
    · subst h0
      by_cases h2 : k2 = k0
      · simp [dictInsert, dictLookup, h2]
      · have hs : ¬(k0 = k2) := fun hh => h2 hh.symm
        simp [dictInsert, dictLookup, h2, hs]
    · by_cases h2 : k2 = k
      · subst h2
        have h02 : ¬(k0 = k2) := h0
        simp [dictInsert, dictLookup, h0, h02, ih]
      · simp [dictInsert, dictLookup, h0, h2, ih]

/-- Lookup in the foldl that builds the empty accumulator. -/
theorem dictLookup_createEmptyDictAux (outs : List String) (d : OpData) (k : String) :
    dictLookup (outs.foldl (fun d o => dictInsert d o []) d) k =
      if k ∈ outs then some [] else dictLookup d k := by
  induction outs generalizing d with
  | nil => simp
  | cons o os ih =>
    simp only [List.foldl_cons]
    rw [ih]
    by_cases h : k ∈ os
    · simp [h, List.mem_cons]
    · rw [dictLookup_dictInsert]
      by_cases h2 : k = o
      · simp [h2, List.mem_cons, h]
      · simp [h, h2, List.mem_cons]

/-- Every configured output starts with an empty value sequence. -/
theorem dictLookup_createEmptyDict (outs : List String) (k : String) (h : k ∈ outs) :
    dictLookup (createEmptyDict outs) k = some [] := by
  unfold createEmptyDict
  rw [dictLookup_createEmptyDictAux, if_pos h]

/-- A successful findData call appends exactly one value under its key and
leaves the rest of the accumulator unchanged. -/
theorem findData_ok_shape {env : Env} {op : Operation} {key : String}
    {d d2 : OpData} {logs : List String}
    (h : findData env op key d = .ok (d2, logs)) :
    ∃ l v, dictLookup d key = some l ∧ d2 = dictInsert d key (l ++ [v]) := by
  by_cases hmem : key ∈ env.OUTPUTS
  · cases hdv : deriveValue env op key d with
    | error e => simp [findData, hdv] at h
    | ok v =>
      cases hl : dictLookup d key with
      | none => simp [findData, hdv, hmem, appendData, hl] at h
      | some l =>
        simp [findData, hdv, hmem, appendData, hl] at h
        exact ⟨l, v, rfl, h.1.symm⟩
  · cases hdv : deriveValue env op key d with
    | error e => simp [findData, hdv] at h
    | ok v =>
      cases hl : dictLookup d key with
      | none => simp [findData, hdv, hmem, appendData, hl] at h
      | some l =>
        simp [findData, hdv, hmem, appendData, hl] at h
        exact ⟨l, .vstr "", rfl, h.1.symm⟩

/-- Effect of one successful findData call on the per-field sequence
lengths. -/
theorem lenAt_findData {env : Env} {op : Operation} {key : String}
    {d d2 : OpData} {logs : List String}
    (h : findData env op key d = .ok (d2, logs)) (k : String) :
    lenAt d2 k = (lenAt d k).map (fun n => n + if k = key then 1 else 0) := by
  obtain ⟨l, v, hl, hd2⟩ := findData_ok_shape h
  subst hd2
  unfold lenAt
  rw [dictLookup_dictInsert]
  by_cases hk : k = key
  · subst hk
    rw [if_pos rfl, hl]
    simp
  · rw [if_neg hk]
    cases dictLookup d k <;> simp [hk]

/-- Effect of one record's output pass on the per-field sequence lengths. -/
theorem lenAt_processOutputs {env : Env} {op : Operation} :
    ∀ (outs : List String) {d d2 : OpData},
      processOutputs env op outs d = .ok d2 →
      ∀ k, lenAt d2 k = (lenAt d k).map (fun n => n + countKey k outs) := by
  intro outs
  induction outs with
  | nil =>
    intro d d2 h k
    unfold processOutputs at h
    simp only [Except.ok.injEq] at h
    subst h
    cases hx : lenAt d k <;> simp [countKey]
  | cons o os ih =>
    intro d d2 h k
    unfold processOutputs at h
    split at h
    · exact absurd h (by simp)
    · rename_i d1 logs heq
      have h1 := lenAt_findData heq k
      have h2 := ih h k
      rw [h2, h1]
      cases hx : lenAt d k with
      | none => simp
      | some n =>
        simp only [Option.map_some']
        have hck : countKey k (o :: os) = (if k = o then 1 else 0) + countKey k os := rfl
        rw [hck]
        congr 1
        omega

/-- Effect of the whole record loop on the per-field sequence lengths. -/
theorem lenAt_processRecords {env : Env} :
    ∀ (ops : List Operation) {d d2 : OpData},
      processRecords env ops d = .ok d2 →
      ∀ k, lenAt d2 k = (lenAt d k).map
        (fun n => n + ops.length * countKey k env.OUTPUTS) := by
  intro ops
  induction ops with
  | nil =>
    intro d d2 h k
    unfold processRecords at h
    simp only [Except.ok.injEq] at h
    subst h
    cases hx : lenAt d k <;> simp
  | cons op ops ih =>
    intro d d2 h k
    unfold processRecords at h
    split at h
    · exact absurd h (by simp)
    · rename_i d1 heq
      have h1 := lenAt_processOutputs env.OUTPUTS heq k
      have h2 := ih h k
      rw [h2, h1]
      cases hx : lenAt d k with
      | none => simp
      | some n =>
        simp only [Option.map_some']
        have : n + countKey k env.OUTPUTS + ops.length * countKey k env.OUTPUTS
            = n + (op :: ops).length * countKey k env.OUTPUTS := by
          simp [List.length_cons]
          ring
        rw [this]

/-- A field name absent from a list occurs zero times in it. -/
theorem countKey_eq_zero {k : String} {os : List String} (h : k ∉ os) :
    countKey k os = 0 := by
  induction os with
  | nil => rfl
  | cons o os ih =>
    have h1 : ¬(k = o) := fun hh => h (hh ▸ List.mem_cons_self o os)
    have h2 : k ∉ os := fun hh => h (List.mem_cons_of_mem o hh)
    simp [countKey, h1, ih h2]

/-- In a duplicate-free output list a configured field name occurs exactly
once. -/
theorem countKey_eq_one {outs : List String} (h : outs.Nodup) {k : String}
    (hk : k ∈ outs) : countKey k outs = 1 := by
  induction outs with
  | nil => cases hk
  | cons o os ih =>
    rw [List.nodup_cons] at h
    rcases List.mem_cons.mp hk with rfl | hmem
    · simp [countKey, countKey_eq_zero h.1]
    · have hko : ¬(k = o) := fun hh => h.1 (hh ▸ hmem)
      simp [countKey, hko, ih h.2 hmem]

/-- A fold whose step fixes every element of the list is the identity. -/
theorem foldl_skip {α β : Type} (f : α → β → α) (l : List β)
    (h : ∀ x ∈ l, ∀ a, f a x = a) : ∀ a, l.foldl f a = a := by
  induction l with
  | nil => intro a; rfl
  | cons x xs ih =>
    intro a
    rw [List.foldl_cons, h x (List.mem_cons_self x xs)]
    exact ih (fun y hy a => h y (List.mem_cons_of_mem x hy) a) a

/-- A fold whose last interesting element determines the result. -/
theorem foldl_last {α β : Type} (f : α → β → α) (g : β → α)
    (l1 l2 : List β) (x : β) (hx : ∀ a, f a x = g x)
    (h2 : ∀ y ∈ l2, ∀ a, f a y = a) (a : α) :
    (l1 ++ x :: l2).foldl f a = g x := by
  rw [List.foldl_append, List.foldl_cons, hx]
  exact foldl_skip f l2 h2 (g x)

/-- A matching override key forces the step's result regardless of the
accumulator. -/
theorem statusOverrideStep_mem {da : DataAssociation}
    (h : da.key ∈ overrideKeys) :
    ∀ a, statusOverrideStep a da = overrideName da.key := by
  intro a
  rcases List.mem_cons.mp h with h1 | h1
  · simp [statusOverrideStep, overrideName, h1]
  rcases List.mem_cons.mp h1 with h2 | h2
  · simp [statusOverrideStep, overrideName, h2]
  rcases List.mem_cons.mp h2 with h3 | h3
  · simp [statusOverrideStep, overrideName, h3]
  · cases h3

/-- A non-matching association leaves the Status accumulator unchanged. -/
theorem statusOverrideStep_skip {da : DataAssociation}
    (h : da.key ∉ overrideKeys) :
    ∀ a, statusOverrideStep a da = a := by
  intro a
  have h1 : ¬(da.key = "job_crash") := fun hh => h (by rw [hh]; simp [overrideKeys])
  have h2 : ¬(da.key = "aborted") := fun hh => h (by rw [hh]; simp [overrideKeys])
  have h3 : ¬(da.key = "canceled") := fun hh => h (by rw [hh]; simp [overrideKeys])
  simp [statusOverrideStep, h1, h2, h3]

/-- A matching error keyword forces the step's result regardless of the
accumulator. -/
theorem errStep_mem {errs : List String} {da : DataAssociation}
    (h : da.key ∈ errs) : ∀ a, errStep errs a da = da.key := by
  intro a
  simp [errStep, h]

/-- A non-matching association leaves the Error Message accumulator
unchanged. -/
theorem errStep_skip {errs : List String} {da : DataAssociation}
    (h : da.key ∉ errs) : ∀ a, errStep errs a da = a := by
  intro a
  simp [errStep, h]

/-- Dispatch of the findData value computation at key "Status". -/
theorem deriveValue_status (env : Env) (op : Operation) (d : OpData) :
    deriveValue env op "Status" d = deriveStatus op := rfl

/-- Dispatch of the findData value computation at key "Error Message". -/
theorem deriveValue_errorMessage (env : Env) (op : Operation) (d : OpData) :
    deriveValue env op "Error Message" d = deriveErrorMessage env op d := rfl

/-- Dispatch of the findData value computation at key "Runtime". -/
theorem deriveValue_runtime (env : Env) (op : Operation) (d : OpData) :
    deriveValue env op "Runtime" d = deriveRuntimeField op d := rfl

/-- Dispatch of the findData value computation at key "Hands-on Time". -/
theorem deriveValue_handsOn (env : Env) (op : Operation) (d : OpData) :
    deriveValue env op "Hands-on Time" d = deriveHandsOnTime d := rfl

/-- Dispatch of the findData value computation at key "Hands-on Time/Job". -/
theorem deriveValue_handsOnPerJob (env : Env) (op : Operation) (d : OpData) :
    deriveValue env op "Hands-on Time/Job" d = deriveHandsOnPerJob d := rfl

/-- Dispatch of the findData value computation at key "Cost/Minute (Total)". -/
theorem deriveValue_costMinTotal (env : Env) (op : Operation) (d : OpData) :
    deriveValue env op "Cost/Minute (Total)" d = deriveCostPerMinTotal d := rfl

/-- Dispatch of the findData value computation at key
"Cost/Minute (Hands-on)". -/
theorem deriveValue_costMinHandsOn (env : Env) (op : Operation) (d : OpData) :
    deriveValue env op "Cost/Minute (Hands-on)" d = deriveCostPerMinHandsOn d := rfl

/-! Claim theorems. -/

/-- C3: for every job state trace with at least two entries whose first and
second-to-last timestamps parse, findRuntime takes the first step's timestamp
as start and the second-to-last step's as end, normalizes both to UTC, and
returns the difference in minutes: the days×1440 + seconds/60 expression
equals exactly (end − start)/60 seconds. -/
theorem c3_runtime_formula (op : Operation) (j : Job)
    (y1 mo1 d1 hr1 mi1 s1 y2 mo2 d2 hr2 mi2 s2 : Nat)
    (hj : op.jobs.getLast? = some j) (hlen : 2 ≤ j.state.length)
    (hx0 : j.state[0]? = some (some (.iso y1 mo1 d1 hr1 mi1 s1)))
    (hx1 : j.state[j.state.length - 2]? = some (some (.iso y2 mo2 d2 hr2 mi2 s2))) :
    findRuntime op = .ok (.vfloat
      (((epochOfCivil y2 mo2 d2 hr2 mi2 s2 - epochOfCivil y1 mo1 d1 hr1 mi1 s1 : Int) : ℚ)
        / 60)) := by
  simp only [findRuntime, hj]
  rw [if_pos hlen, hx0, hx1]
  simp only [parseTime]
  rw [pyMinutes_eq]

/-- C3 witness: on the trace carrying 2018-01-01T00:00:00+00:00,
2018-01-01T00:10:00+00:00 and a trailing non-timestamp marker, findRuntime
returns 10.0 minutes. -/
theorem c3_witness : findRuntime opTrace10 = .ok (.vfloat 10) := by
  have h := c3_runtime_formula opTrace10 ⟨some 1, [0],
      [some (.iso 2018 1 1 0 0 0), some (.iso 2018 1 1 0 10 0), some .invalid]⟩
    2018 1 1 0 0 0 2018 1 1 0 10 0 rfl (by decide) rfl rfl
  have hsec : (epochOfCivil 2018 1 1 0 10 0 - epochOfCivil 2018 1 1 0 0 0 : Int) = 600 := by
    decide
  rw [h, hsec]
  norm_num

/-- C5: for a record with status "error", the Status override scans all data
associations and the last association whose key is one of job_crash, aborted,
canceled determines the final value (job_crash resolving to "crashed"). -/
theorem c5_status_override (env : Env) (op : Operation) (d : OpData)
    (l1 l2 : List DataAssociation) (da : DataAssociation)
    (hst : op.status = "error") (hdas : op.data_associations = l1 ++ da :: l2)
    (hk : da.key ∈ overrideKeys) (h2 : ∀ x ∈ l2, x.key ∉ overrideKeys) :
    deriveValue env op "Status" d = .ok (.vstr (overrideName da.key)) := by
  rw [deriveValue_status]
  unfold deriveStatus
  rw [hdas, hst]
  rw [if_pos ⟨by simp, rfl⟩]
  rw [foldl_last statusOverrideStep (fun x => overrideName x.key) l1 l2 da
    (statusOverrideStep_mem hk) (fun y hy => statusOverrideStep_skip (h2 y hy)) "error"]

/-- C5 witness: a record with status "error" carrying a single job_crash
association resolves to "crashed". -/
theorem c5_witness :
    deriveValue envDate opCrash "Status" dStatusError = .ok (.vstr "crashed") := by
  have h := c5_status_override envDate opCrash dStatusError [] []
    ⟨"job_crash", .vstr "log"⟩ rfl rfl (by simp [overrideKeys]) (by simp)
  rw [h]
  rfl

/-- C6: for a row whose derived Status is "done", whose derived Runtime is a
truthy float R, and whose derived Hands-off Time is a number H, the Hands-on
Time field is exactly R − H. -/
theorem c6_hands_on_time (env : Env) (op : Operation) (d : OpData)
    (R hq : ℚ) (H : Value)
    (hS : getLastE d "Status" = .ok (.vstr "done"))
    (hR : getLastE d "Runtime" = .ok (.vfloat R)) (hR0 : R ≠ 0)
    (hH : getLastE d "Hands-off Time" = .ok H) (hHq : toQ H = some hq) :
    deriveValue env op "Hands-on Time" d = .ok (.vfloat (R - hq)) := by
  have hb : (R == 0) = false := beq_eq_false_iff_ne.mpr hR0
  rw [deriveValue_handsOn]
  cases H with
  | vstr s => simp [toQ] at hHq
  | vint n =>
    simp only [toQ, Option.some.injEq] at hHq
    subst hHq
    simp [deriveHandsOnTime, hS, hR, hH, pyEqStr, pyTruthy, hb, pySub]
  | vfloat q =>
    simp only [toQ, Option.some.injEq] at hHq
    subst hHq
    simp [deriveHandsOnTime, hS, hR, hH, pyEqStr, pyTruthy, hb, pySub]

/-- C6 witness: Status "done", Runtime 30.0, Hands-off Time 10 give Hands-on
Time 20.0. -/
theorem c6_witness :
    deriveValue envDate opFix "Hands-on Time" dDone30 = .ok (.vfloat 20) := by
  have h := c6_hands_on_time envDate opFix dDone30 30 10 (.vint 10)
    rfl rfl (by norm_num) rfl (by norm_num [toQ])
  rw [h]
  norm_num

/-- C8: on a state trace whose "time" fields are Unix-epoch integers, the
timestamp branch `datetime.fromtimestamp(int(t), utc_tz)` references the
undefined name `utc_tz`, so findRuntime raises NameError instead of returning
the end − start difference in minutes. -/
theorem c8_epoch_name_error : findRuntime opEpoch = .error (.nameError "utc_tz") := rfl

/-- A field name outside the catalog leaves the initial empty value. -/
theorem deriveValue_unknown (env : Env) (op : Operation) (d : OpData)
    {key : String} (h : key ∉ knownKeys) :
    deriveValue env op key d = .ok (.vstr "") := by
  simp only [knownKeys, List.mem_cons, List.mem_singleton, not_or] at h
  obtain ⟨h1, h2, h3, h4, h5, h6, h7, h8, h9, h10, h11, h12, h13, h14, h15,
    h16, h17, h18⟩ := h
  simp [deriveValue, h1, h2, h3, h4, h5, h6, h7, h8, h9, h10, h11, h12, h13,
    h14, h15, h16, h17, h18]

/-- C1 (amended): the derivation step can raise.  (1) an access to a
dependency field not yet present in the row — here Runtime reading Status —
raises a KeyError that propagates; (2) a field name outside both the catalog
and the configured outputs raises a KeyError in the append step, before its
diagnostic is printed; (3) a configured field name outside the catalog yields
an empty value with no diagnostic; (4) only guarded scans such as the Error
Message rule swallow a missing-dependency error. -/
theorem c1_error_handling_amended :
    (∀ (env : Env) (op : Operation) (d : OpData), dictLookup d "Status" = none →
      findData env op "Runtime" d = .error (.keyError "Status"))
  ∧ (∀ (env : Env) (op : Operation) (d : OpData) (key : String),
      key ∉ knownKeys → key ∉ env.OUTPUTS → dictLookup d key = none →
      findData env op key d = .error (.keyError key))
  ∧ (∀ (env : Env) (op : Operation) (d : OpData) (key : String) (l : List Value),
      key ∉ knownKeys → key ∈ env.OUTPUTS → dictLookup d key = some l →
      findData env op key d = .ok (dictInsert d key (l ++ [.vstr ""]), []))
  ∧ (∀ (env : Env) (op : Operation) (d : OpData), op.data_associations ≠ [] →
      dictLookup d "Status" = none →
      deriveValue env op "Error Message" d = .ok (.vstr "")) := by
  refine ⟨?_, ?_, ?_, ?_⟩
  · intro env op d hlook
    have hdv := deriveValue_runtime env op d
    simp [findData, hdv, deriveRuntimeField, getLastE, hlook]
  · intro env op d key hkn hmem hlook
    simp [findData, deriveValue_unknown env op d hkn, hmem, appendData, hlook]
  · intro env op d key l hkn hmem hlook
    simp [findData, deriveValue_unknown env op d hkn, hmem, appendData, hlook]
  · intro env op d hda hlook
    rw [deriveValue_errorMessage]
    simp [deriveErrorMessage, hda, getLastE, hlook]

/-- C1 counterexample: findData raises (KeyError) on a field name outside the
catalog and the configured outputs, instead of recording an empty value with
a diagnostic. -/
theorem c1_counterexample :
    findData envDate opFix "Foo" (createEmptyDict ["Date"])
      = .error (.keyError "Foo") := rfl

/-- C1 witness: deriving Runtime with no Status in the row raises a KeyError
that propagates out of findData. -/
theorem c1_witness :
    findData envRuntime opFix "Runtime" (createEmptyDict ["Runtime"])
      = .error (.keyError "Status") :=
  c1_error_handling_amended.1 envRuntime opFix (createEmptyDict ["Runtime"]) rfl

/-- C4 (amended): with data associations present and the last derived Status
not "done", the Error Message field is the LAST data-association key (in the
record's association order) present in the configured error-keyword list; it
is empty when Status is "done" or when no association key is in the list. -/
theorem c4_error_message_amended :
    (∀ (env : Env) (op : Operation) (d : OpData) (s : Value)
        (l1 l2 : List DataAssociation) (da : DataAssociation),
      op.data_associations = l1 ++ da :: l2 → da.key ∈ env.ERRORS →
      (∀ x ∈ l2, x.key ∉ env.ERRORS) →
      getLastE d "Status" = .ok s → pyEqStr s "done" = false →
      deriveValue env op "Error Message" d = .ok (.vstr da.key))
  ∧ (∀ (env : Env) (op : Operation) (d : OpData),
      getLastE d "Status" = .ok (.vstr "done") →
      deriveValue env op "Error Message" d = .ok (.vstr ""))
  ∧ (∀ (env : Env) (op : Operation) (d : OpData),
      (∀ x ∈ op.data_associations, x.key ∉ env.ERRORS) →
      deriveValue env op "Error Message" d = .ok (.vstr "")) := by
  refine ⟨?_, ?_, ?_⟩
  · intro env op d s l1 l2 da hdas hk h2 hS hne
    rw [deriveValue_errorMessage]
    unfold deriveErrorMessage
    rw [hdas, if_neg (by simp)]
    simp only [hS, hne, Bool.false_eq_true, if_false]
    rw [foldl_last (errStep env.ERRORS) (fun x => x.key) l1 l2 da
      (errStep_mem hk) (fun y hy => errStep_skip (h2 y hy)) ""]
  · intro env op d hS
    rw [deriveValue_errorMessage]
    unfold deriveErrorMessage
    by_cases hda : op.data_associations = []
    · simp [hda]
    · simp [hda, hS, pyEqStr]
  · intro env op d hall
    rw [deriveValue_errorMessage]
    unfold deriveErrorMessage
    by_cases hda : op.data_associations = []
    · simp [hda]
    · cases hSt : getLastE d "Status" with
      | error e => simp [hda, hSt]
      | ok s =>
        by_cases hdone : pyEqStr s "done" = true
        · simp [hda, hSt, hdone]
        · have hfold := foldl_skip (errStep env.ERRORS) op.data_associations
            (fun x hx a => errStep_skip (hall x hx) a) ""
          simp [hda, hSt, hdone, hfold]

/-- C4 counterexample: with error keywords ["alpha", "beta"] and associations
alpha then beta on a non-done record, the code records "beta" (the last
match), while the first matching key is "alpha". -/
theorem c4_counterexample :
    deriveValue envErrAB opErrAB "Error Message" dStatusError = .ok (.vstr "beta")
  ∧ specFirstErrorKey envErrAB.ERRORS opErrAB.data_associations = some "alpha"
  ∧ "beta" ≠ "alpha" := ⟨rfl, rfl, by decide⟩

/-- C4 witness: the last (and here only) matching keyword "gamma" is
recorded. -/
theorem c4_witness :
    deriveValue envErrG opErrG "Error Message" dStatusError = .ok (.vstr "gamma") :=
  c4_error_message_amended.1 envErrG opErrG dStatusError (.vstr "error")
    [⟨"delta", .vstr "1"⟩] [] ⟨"gamma", .vstr "2"⟩ rfl (by decide) (by simp) rfl rfl

/-- With the Status row readable and the last Runtime value falsy, the four
runtime-dependent fields all derive to the empty string. -/
theorem dependents_empty (env : Env) (op : Operation) (d : OpData) (s r : Value)
    (hS : getLastE d "Status" = .ok s) (hR : getLastE d "Runtime" = .ok r)
    (hr : pyTruthy r = false) :
    deriveValue env op "Hands-on Time" d = .ok (.vstr "")
    ∧ deriveValue env op "Hands-on Time/Job" d = .ok (.vstr "")
    ∧ deriveValue env op "Cost/Minute (Total)" d = .ok (.vstr "")
    ∧ deriveValue env op "Cost/Minute (Hands-on)" d = .ok (.vstr "") := by
  refine ⟨?_, ?_, ?_, ?_⟩
  · rw [deriveValue_handsOn]
    by_cases hdone : pyEqStr s "done" = true
    · simp [deriveHandsOnTime, hS, hdone, hR, hr]
    · simp [deriveHandsOnTime, hS, hdone]
  · rw [deriveValue_handsOnPerJob]
    by_cases hdone : pyEqStr s "done" = true
    · simp [deriveHandsOnPerJob, hS, hdone, hR, hr]
    · simp [deriveHandsOnPerJob, hS, hdone]
  · rw [deriveValue_costMinTotal]
    by_cases hdone : pyEqStr s "done" = true
    · simp [deriveCostPerMinTotal, hS, hdone, hR, hr]
    · simp [deriveCostPerMinTotal, hS, hdone]
  · rw [deriveValue_costMinHandsOn]
    by_cases hdone : pyEqStr s "done" = true
    · simp [deriveCostPerMinHandsOn, hS, hdone, hR, hr]
    · simp [deriveCostPerMinHandsOn, hS, hdone]

/-- C7: a state trace with fewer than two entries yields an empty Runtime —
both in findRuntime and through the Runtime field of a done record — and a
row whose last Runtime value is the empty string derives empty Hands-on Time,
Hands-on Time/Job, Cost/Minute (Total) and Cost/Minute (Hands-on). -/
theorem c7_short_trace_cascade :
    (∀ (op : Operation) (j : Job), op.jobs.getLast? = some j →
      j.state.length < 2 → findRuntime op = .ok (.vstr ""))
  ∧ (∀ (env : Env) (op : Operation) (d : OpData) (j : Job),
      getLastE d "Status" = .ok (.vstr "done") → op.jobs.getLast? = some j →
      j.state.length < 2 → deriveValue env op "Runtime" d = .ok (.vstr ""))
  ∧ (∀ (env : Env) (op : Operation) (d : OpData) (s : Value),
      getLastE d "Status" = .ok s → getLastE d "Runtime" = .ok (.vstr "") →
      deriveValue env op "Hands-on Time" d = .ok (.vstr "")
      ∧ deriveValue env op "Hands-on Time/Job" d = .ok (.vstr "")
      ∧ deriveValue env op "Cost/Minute (Total)" d = .ok (.vstr "")
      ∧ deriveValue env op "Cost/Minute (Hands-on)" d = .ok (.vstr "")) := by
  have hshort : ∀ (op : Operation) (j : Job), op.jobs.getLast? = some j →
      j.state.length < 2 → findRuntime op = .ok (.vstr "") := by
    intro op j hj hlen
    simp only [findRuntime, hj]
    rw [if_neg (by omega)]
  refine ⟨hshort, ?_, ?_⟩
  · intro env op d j hS hj hlen
    rw [deriveValue_runtime]
    unfold deriveRuntimeField
    simp [hS, pyEqStr, hshort op j hj hlen]
  · intro env op d s hS hR
    exact dependents_empty env op d s (.vstr "") hS hR rfl

/-- C7 witness: a one-entry trace gives empty Runtime, and the empty Runtime
cascades to an empty Hands-on Time. -/
theorem c7_witness :
    findRuntime opTrace1 = .ok (.vstr "")
  ∧ deriveValue envDate opTrace1 "Runtime" dDoneEmptyRt = .ok (.vstr "")
  ∧ deriveValue envDate opTrace1 "Hands-on Time" dDoneEmptyRt = .ok (.vstr "") :=
  ⟨c7_short_trace_cascade.1 opTrace1 ⟨some 1, [0], [some (.iso 2018 1 1 0 0 0)]⟩
      rfl (by decide),
   c7_short_trace_cascade.2.1 envDate opTrace1 dDoneEmptyRt
      ⟨some 1, [0], [some (.iso 2018 1 1 0 0 0)]⟩ rfl rfl (by decide),
   (c7_short_trace_cascade.2.2 envDate opTrace1 dDoneEmptyRt (.vstr "done")
      rfl rfl).1⟩

/-- C10: a two-entry trace whose first entry parses gives Runtime 0.0 (first
and second-to-last coincide), and a row with Status "done" and last Runtime
0.0 derives all four dependent fields empty, because the guard tests Python
truthiness and 0.0 is falsy like the empty string. -/
theorem c10_zero_runtime :
    (∀ (op : Operation) (j : Job) (y mo dd hh mi ss : Nat) (e2 : Option TimeField),
      op.jobs.getLast? = some j →
      j.state = [some (.iso y mo dd hh mi ss), e2] →
      findRuntime op = .ok (.vfloat 0))
  ∧ (∀ (env : Env) (op : Operation) (d : OpData),
      getLastE d "Status" = .ok (.vstr "done") →
      getLastE d "Runtime" = .ok (.vfloat 0) →
      deriveValue env op "Hands-on Time" d = .ok (.vstr "")
      ∧ deriveValue env op "Hands-on Time/Job" d = .ok (.vstr "")
      ∧ deriveValue env op "Cost/Minute (Total)" d = .ok (.vstr "")
      ∧ deriveValue env op "Cost/Minute (Hands-on)" d = .ok (.vstr "")) := by
  refine ⟨?_, ?_⟩
  · intro op j y mo dd hh mi ss e2 hj hst
    simp only [findRuntime, hj, hst]
    norm_num [parseTime, pyMinutes_eq]
  · intro env op d hS hR
    exact dependents_empty env op d (.vstr "done") (.vfloat 0) hS hR (by simp [pyTruthy])

/-- C10 witness: a concrete two-entry trace gives Runtime 0.0 and the zero
runtime leaves Hands-on Time and Cost/Minute (Total) empty. -/
theorem c10_witness :
    findRuntime opTrace2 = .ok (.vfloat 0)
  ∧ deriveValue envDate opTrace2 "Hands-on Time" dDoneZeroRt = .ok (.vstr "")
  ∧ deriveValue envDate opTrace2 "Cost/Minute (Total)" dDoneZeroRt = .ok (.vstr "") :=
  ⟨c10_zero_runtime.1 opTrace2
      ⟨some 1, [0], [some (.iso 2018 3 5 12 0 0), some (.iso 2018 3 5 13 0 0)]⟩
      2018 3 5 12 0 0 (some (.iso 2018 3 5 13 0 0)) rfl rfl,
   (c10_zero_runtime.2 envDate opTrace2 dDoneZeroRt rfl rfl).1,
   (c10_zero_runtime.2 envDate opTrace2 dDoneZeroRt rfl rfl).2.2.1⟩

/-- C2 (amended): for a duplicate-free configured output list, if processing
K records completes without an exception, the accumulator maps every
configured field name to a sequence of exactly K values. -/
theorem c2_row_lengths_amended (env : Env) (ops : List Operation) (d2 : OpData)
    (hnd : env.OUTPUTS.Nodup) (h : collectDataProtocol env ops = .ok d2) :
    ∀ o ∈ env.OUTPUTS, ∃ l, dictLookup d2 o = some l ∧ l.length = ops.length := by
  intro o ho
  unfold collectDataProtocol at h
  have hlen := lenAt_processRecords ops h o
  have hinit : lenAt (createEmptyDict env.OUTPUTS) o = some 0 := by
    unfold lenAt
    rw [dictLookup_createEmptyDict env.OUTPUTS o ho]
    rfl
  rw [hinit, countKey_eq_one hnd ho] at hlen
  unfold lenAt at hlen
  cases hx : dictLookup d2 o with
  | none => rw [hx] at hlen; simp at hlen
  | some l =>
    rw [hx] at hlen
    simp only [Option.map_some', Option.some.injEq] at hlen
    exact ⟨l, rfl, by omega⟩

/-- C2 counterexample: with the duplicated output list ["Date", "Date"],
processing one record leaves the Date sequence with 2 values, not 1. -/
theorem c2_counterexample :
    Except.map (fun d => (dictLookup d "Date").map List.length)
      (collectDataProtocol envDup [opFix]) = .ok (some 2)
  ∧ (2 : ℕ) ≠ 1 := ⟨rfl, by decide⟩

/-- C2 witness: one record processed over the outputs ["Date", "ID"] leaves
the Date sequence with exactly one value. -/
theorem c2_witness :
    ∃ l, dictLookup [("Date", [Value.vstr "2018-08-01T00:00:00+00:00"]),
      ("ID", [Value.vint 7])] "Date" = some l ∧ l.length = 1 :=
  c2_row_lengths_amended envDateId [opFix] _ (by decide) rfl "Date" (by decide)

/-- C9 (amended): the fetched sequence is independent of the time argument,
and an operation is kept iff its OWN submitting user identifier is one of the
resolved user identifiers, it has at least one job, and its most recent job
has a non-empty technician identifier (the membership test reads op.user_id,
not the job's technician). -/
theorem c9_filter_amended :
    (∀ (keys : List Int) (ops : List Operation) (t1 t2 : Int),
      collectOperations keys ops t1 = collectOperations keys ops t2)
  ∧ (∀ (keys : List Int) (ops : List Operation) (t : Int) (op : Operation),
      op ∈ collectOperations keys ops t ↔
        op ∈ ops ∧ memOptInt op.user_id keys = true ∧ op.jobs ≠ []
          ∧ jobsLastTech op = true) := by
  refine ⟨fun keys ops t1 t2 => rfl, ?_⟩
  intro keys ops t op
  unfold collectOperations
  rw [List.mem_filter]
  simp only [Bool.and_eq_true, Bool.not_eq_true', and_assoc]
  constructor
  · rintro ⟨h1, h2, h3, h4⟩
    exact ⟨h1, h2, by simpa using h3, h4⟩
  · rintro ⟨h1, h2, h3, h4⟩
    exact ⟨h1, h2, by simpa using h3, h4⟩

/-- C9 counterexample: an operation submitted by user 1 (a resolved id) whose
most recent job was run by technician 2 (not a resolved id) is yielded by
collectOperations, although the specified technician-based predicate rejects
it. -/
theorem c9_counterexample :
    collectOperations [1] [opTech2] 0 = [opTech2]
  ∧ specFilterPredicate [1] opTech2 = false := ⟨rfl, rfl⟩

end AqData
